import Mathlib

/-!
Verification of the Copilot CLI SDK client subsystem: a shallow embedding of
the session/event dispatch layer (session.ts), the client lifecycle and
tool-call dispatch layer (client.ts), and the streaming query orchestration
(query.ts), with theorems settling the specification claims about them.

External effects (the JSON-RPC transport, the spawned CLI process, timers)
are modelled by explicit environments: an RPC call or a process interaction
is a value of `Except`/`Option` supplied by the environment, and the code
under verification is translated statement by statement into total Lean
functions over those environments.
-/

namespace CopilotSDK

/-- Single quote character, used to build messages that quote a tool name. -/
def sq : String := String.singleton (Char.ofNat 39)

/-! ### Types (types.ts) -/

/-- The `data : unknown` field of a session event, as far as the SDK inspects
it: `query()` only asks whether it is an object with a `message` property. -/
inductive EventData where
  | withMessage (message : String)
  | noMessage
  deriving DecidableEq, Repr

/-- `SessionEvent` from types.ts. The optional `ephemeral` flag is modelled as
a `Bool` (absent = `false`, matching its use in a boolean position). -/
structure SessionEvent where
  type : String
  data : EventData
  id : String
  timestamp : String
  ephemeral : Bool := false
  deriving DecidableEq, Repr

/-- `ToolResultType` from types.ts. -/
inductive ToolResultType where
  | success
  | failure
  | rejected
  | denied
  deriving DecidableEq, Repr

/-- `ToolResultObject` from types.ts (the structured form of a tool result).
`toolTelemetry : Record<string, unknown>` is modelled as an association list;
the code only ever builds the empty record. -/
structure ToolResultObject where
  textResultForLlm : String
  resultType : ToolResultType
  error : Option String := none
  toolTelemetry : List (String × String) := []
  deriving DecidableEq, Repr

/-- `ToolResult = string | ToolResultObject` from types.ts. -/
inductive ToolResult where
  | str (s : String)
  | obj (o : ToolResultObject)
  deriving DecidableEq, Repr

/-- `ToolInvocation` from types.ts; `arguments : unknown` is opaque to the
SDK and modelled as a string. -/
structure ToolInvocation where
  sessionId : String
  toolCallId : String
  toolName : String
  arguments : String
  deriving DecidableEq, Repr

/-- The observable behaviour of one tool-handler invocation: the handler
either throws (rejects) with a message, or returns a value, where `returns
none` models a handler that returns `undefined`. -/
inductive HandlerOutcome where
  | throws (message : String)
  | returns (result : Option ToolResult)
  deriving DecidableEq, Repr

/-- `ToolHandler` from types.ts, as a function from the invocation to its
observable behaviour. -/
def ToolHandler : Type := ToolInvocation → HandlerOutcome

/-- `ToolCallResponsePayload` from types.ts. -/
structure ToolCallResponsePayload where
  result : ToolResult
  deriving DecidableEq, Repr

/-! ### CopilotSession (session.ts) -/

/-- One registered session event handler: an identifier plus its behaviour.
`run e = some msg` models the handler throwing with that message when invoked
on `e`; `run e = none` models a normal return. -/
structure SessionHandler where
  hid : Nat
  run : SessionEvent → Option String

/-- The local state of a `CopilotSession`: its `eventHandlers` set and its
`toolHandlers` map, both modelled as lists (insertion order). -/
structure SessionState where
  eventHandlers : List SessionHandler
  toolHandlers : List (String × ToolHandler)

/-- `CopilotSession._dispatchEvent`: iterate over the registered handlers,
invoking each on the event inside a try/catch that swallows the handler's
exception. The result records, in order, each invocation that happened: the
handler's identifier and whether it raised (`some msg`) or returned. -/
def dispatchEvent (handlers : List SessionHandler) (event : SessionEvent) :
    List (Nat × Option String) :=
  match handlers with
  | [] => []
  | h :: rest =>
    match h.run event with
    | some msg => (h.hid, some msg) :: dispatchEvent rest event
    | none => (h.hid, none) :: dispatchEvent rest event

/-- `CopilotSession.getToolHandler`. -/
def getToolHandler (s : SessionState) (name : String) : Option ToolHandler :=
  s.toolHandlers.lookup name

/-- `CopilotSession.destroy`: sends the `session.destroy` RPC (its outcome is
supplied by `rpcDestroy`); only on success does it clear the local handler and
tool maps. A rejected RPC propagates and leaves the maps untouched. -/
def destroy (rpcDestroy : Except String Unit) (s : SessionState) :
    Except String SessionState :=
  match rpcDestroy with
  | .error e => .error e
  | .ok _ => .ok { eventHandlers := [], toolHandlers := [] }

/-! ### CopilotClient: tool-call dispatch (client.ts) -/

/-- An inbound `tool.call` payload before validation: each of the three
required fields is `some` when present as a string, `none` when missing or of
another type. -/
structure ToolCallPayload where
  sessionId : Option String
  toolCallId : Option String
  toolName : Option String
  arguments : String

/-- The client's session registry (`this.sessions : Map<string, CopilotSession>`),
modelled as an association list keyed by session id. -/
def SessionRegistry : Type := List (String × SessionState)

/-- `CopilotClient.buildUnsupportedToolResult`. -/
def buildUnsupportedToolResult (toolName : String) : ToolResultObject :=
  { textResultForLlm :=
      "Tool " ++ sq ++ toolName ++ sq ++ " is not supported by this client instance.",
    resultType := .failure,
    error := some ("tool " ++ sq ++ toolName ++ sq ++ " not supported"),
    toolTelemetry := [] }

/-- `CopilotClient.normalizeToolResult`: `undefined`/`null` results become an
explicit failure result; anything else passes through unchanged. -/
def normalizeToolResult (result : Option ToolResult) : ToolResult :=
  match result with
  | none =>
    .obj { textResultForLlm := "Tool returned no result",
           resultType := .failure,
           error := some "tool returned no result",
           toolTelemetry := [] }
  | some r => r

/-- `CopilotClient.executeToolCall`: invoke the handler; a raised exception is
caught and converted into a failure `ToolResult` carrying the message; a
returned value is normalized. -/
def executeToolCall (handler : ToolHandler) (request : ToolInvocation) :
    ToolCallResponsePayload :=
  match handler request with
  | .throws message =>
    { result := .obj { textResultForLlm := message,
                       resultType := .failure,
                       error := some message,
                       toolTelemetry := [] } }
  | .returns r => { result := normalizeToolResult r }

/-- `CopilotClient.handleToolCallRequest`: validate the payload (all three
fields must be strings), resolve the session, then either answer with the
unsupported-tool result or execute the handler. `Except.error` models the
method throwing, i.e. failing the RPC request at the protocol level. -/
def handleToolCallRequest (sessions : SessionRegistry) (params : ToolCallPayload) :
    Except String ToolCallResponsePayload :=
  match params.sessionId, params.toolCallId, params.toolName with
  | some sid, some tcid, some tname =>
    match sessions.lookup sid with
    | none => .error ("Unknown session " ++ sid)
    | some session =>
      match getToolHandler session tname with
      | none => .ok { result := .obj (buildUnsupportedToolResult tname) }
      | some handler =>
        .ok (executeToolCall handler
          { sessionId := sid, toolCallId := tcid, toolName := tname,
            arguments := params.arguments })
  | _, _, _ => .error "Invalid tool call payload"

/-! ### CopilotClient: session.event notification routing (client.ts) -/

/-- A field value of an inbound notification object: a string, or present but
of some other type. -/
inductive FieldVal where
  | str (s : String)
  | nonString

/-- An inbound `session.event` notification before validation: either not an
object at all, or an object whose `sessionId` and `event` fields may each be
absent. -/
inductive NotificationValue where
  | notObject
  | object (sessionIdField : Option FieldVal) (eventField : Option SessionEvent)

/-- `CopilotClient.handleSessionEventNotification`: a guard chain returns
early (discarding the notification, result `none`) unless the payload is an
object with a string `sessionId` and an `event` field and the session id is
registered; then the event is forwarded to that session's dispatch. The
result records the dispatch that happened: the session id, the forwarded
event, and the handler invocations. The function is total (never throws) and
reads but never writes the registry. -/
def handleSessionEventNotification (sessions : SessionRegistry)
    (n : NotificationValue) :
    Option (String × SessionEvent × List (Nat × Option String)) :=
  match n with
  | .notObject => none
  | .object sidField evField =>
    match sidField, evField with
    | some (.str sid), some ev =>
      match sessions.lookup sid with
      | some session => some (sid, ev, dispatchEvent session.eventHandlers ev)
      | none => none
    | _, _ => none

/-! ### CopilotClient.stop (client.ts) -/

/-- The backoff delay slept after a failed destroy attempt:
`100 * Math.pow(2, attempt - 1)` milliseconds. -/
def destroyDelay (attempt : Nat) : Nat := 100 * 2 ^ (attempt - 1)

/-- One live session as `stop()` sees it: its id and, for each attempt number
(1-based), the outcome of calling `session.destroy()` on that attempt. -/
structure SessionStopEnv where
  sessionId : String
  destroyAttempt : Nat → Except String Unit

/-- The body of the retry loop of `stop()` over the list of remaining attempt
numbers: try `destroy()` on the current attempt; on success reset `lastError`
and break; on failure record the error and, when further attempts remain
(`attempt < 3` in the source), sleep the backoff delay for the current
attempt before retrying. Returns the final `lastError` and the delays slept,
in order. -/
def destroyLoop (d : Nat → Except String Unit) :
    List Nat → Option String × List Nat
  | [] => (none, [])
  | [a] =>
    match d a with
    | .ok _ => (none, [])
    | .error e => (some e, [])
  | a :: b :: rest =>
    match d a with
    | .ok _ => (none, [])
    | .error _ =>
      let tail := destroyLoop d (b :: rest)
      (tail.1, destroyDelay a :: tail.2)

/-- The retry loop of `stop()` for one session: `for (attempt = 1; attempt <=
3; attempt++)`. -/
def destroyWithRetry (d : Nat → Except String Unit) : Option String × List Nat :=
  destroyLoop d [1, 2, 3]

/-- The session-teardown phase of `stop()`: for each live session run the
retry loop; a session whose final `lastError` is set pushes one aggregated
error naming the session and the last failure. Returns the accumulated errors
and all delays slept. -/
def sessionStopErrors (sessions : List SessionStopEnv) : List String × List Nat :=
  match sessions with
  | [] => ([], [])
  | s :: rest =>
    let r := destroyWithRetry s.destroyAttempt
    let tail := sessionStopErrors rest
    match r.1 with
    | none => (tail.1, r.2 ++ tail.2)
    | some e =>
      (("Failed to destroy session " ++ s.sessionId ++ " after 3 attempts: " ++ e)
          :: tail.1,
        r.2 ++ tail.2)

/-- One guarded resource-teardown step of `stop()`: `none` when the resource
is absent (nothing to do), otherwise the outcome of closing it; a failure
contributes one error prefixed with the step's message. -/
def resourceStopError (label : String) (r : Option (Except String Unit)) :
    List String :=
  match r with
  | none => []
  | some (.ok _) => []
  | some (.error e) => [label ++ e]

/-- The environment of one `stop()` call: the live sessions and, for the
connection, socket and CLI process, whether each is present and whether
closing it succeeds. -/
structure StopEnv where
  sessions : List SessionStopEnv
  connection : Option (Except String Unit)
  socket : Option (Except String Unit)
  cliProcess : Option (Except String Unit)

/-- What `stop()` leaves behind: the returned error list, the session
registry, the delays slept, whether each resource reference was nulled, and
the connection state. -/
structure StopResult where
  errors : List String
  sessionsAfter : List SessionStopEnv
  delays : List Nat
  connectionAfter : Bool
  socketAfter : Bool
  cliProcessAfter : Bool
  state : String

/-- `CopilotClient.stop`: destroy every live session with the retry loop,
clear the registry, then dispose the connection, end the socket and kill the
process, each step guarded so its failure only appends an error; return the
accumulated error list (the function is total: it never throws). -/
def stop (env : StopEnv) : StopResult :=
  let sess := sessionStopErrors env.sessions
  { errors := sess.1
      ++ resourceStopError "Failed to dispose connection: " env.connection
      ++ resourceStopError "Failed to close socket: " env.socket
      ++ resourceStopError "Failed to kill CLI process: " env.cliProcess,
    sessionsAfter := [],
    delays := sess.2,
    connectionAfter := false,
    socketAfter := false,
    cliProcessAfter := false,
    state := "disconnected" }

/-- The one aggregated error a session contributes to `stop()`'s result when
its retry loop ends with a recorded failure. -/
def aggregatedError (s : SessionStopEnv) : Option String :=
  (destroyWithRetry s.destroyAttempt).1.map
    (fun e => "Failed to destroy session " ++ s.sessionId ++ " after 3 attempts: " ++ e)

/-! ### query (query.ts) -/

/-- A JavaScript `Error` as far as query.ts inspects one: its `name` and its
`message`. -/
structure QError where
  name : String
  message : String
  deriving DecidableEq, Repr

/-- How the event-consumption loop of `query()` ended. -/
inductive LoopExit where
  | completed
  | sessionErr (message : String)
  | exhausted
  deriving DecidableEq, Repr

/-- The message extraction of the `session.error` branch of `query()`:
`typeof data === "object" && data && "message" in data ? String(data.message)
: "Unknown error"`. -/
def extractErrorMessage : EventData → String
  | .withMessage m => m
  | .noMessage => "Unknown error"

/-- The `for await` loop of `query()` over the incoming session events, in
arrival order: skip an ephemeral event when `includeEphemeral` is false;
throw on a `session.error` event (before yielding it); otherwise yield the
event, and stop after yielding a `session.idle` event. Returns the yielded
events and how the loop ended; `exhausted` means the listed events ran out
with the loop still waiting. -/
def runLoop (includeEphemeral : Bool) :
    List SessionEvent → List SessionEvent × LoopExit
  | [] => ([], .exhausted)
  | e :: rest =>
    if e.ephemeral && !includeEphemeral then runLoop includeEphemeral rest
    else if e.type == "session.error" then
      ([], .sessionErr (extractErrorMessage e.data))
    else if e.type == "session.idle" then ([e], .completed)
    else
      let tail := runLoop includeEphemeral rest
      (e :: tail.1, tail.2)

/-- What interrupts the loop when the events run out without completion:
either the timeout abort fires (the iterator raises an `AbortError`), or the
pending `session.send` promise rejects and its error is thrown into the
iterator. -/
inductive Interruption where
  | abortFired
  | sendFailure (message : String)
  deriving DecidableEq, Repr

/-- The environment of one `query()` run: the outcomes of the external
operations it awaits, the event trace, what interrupts an unfinished loop,
and the wall clock used to stamp the synthetic cleanup-error event. -/
structure QueryEnv where
  startResult : Except QError Unit
  sessionResult : Except QError Unit
  events : List SessionEvent
  interruption : Interruption
  destroyResult : Except QError Unit
  stopErrors : List String
  now : Nat
  nowIso : String

/-- The options of `query()` that its control flow reads, with their declared
defaults applied via `Option.getD`. -/
structure QueryOpts where
  prompt : String
  timeout : Option Nat := none
  includeEphemeral : Option Bool := none
  deriving DecidableEq, Repr

/-- What the `finally` block of `query()` did on one run. `sessionDestroyed =
none` means no session had been created, so there was nothing to destroy. -/
structure Teardown where
  turnFinished : Bool
  timerCleared : Bool
  sessionDestroyed : Option Bool
  clientStopped : Bool
  syntheticErrorEvents : Nat
  deriving DecidableEq, Repr

/-- The observable outcome of one `query()` run: the events yielded to the
consumer in order, whether the stream completed or failed (and with which
error), and the teardown record. -/
structure QueryResult where
  yielded : List SessionEvent
  outcome : Except QError Unit
  teardown : Teardown
  deriving Repr

/-- The synthetic final event yielded when `client.stop()` reports cleanup
errors. -/
def cleanupErrorEvent (errs : List String) (now : Nat) (nowIso : String) :
    SessionEvent :=
  { type := "error",
    data := .withMessage ("Cleanup errors: " ++ String.intercalate "; " errs),
    id := "error-" ++ toString now,
    timestamp := nowIso,
    ephemeral := false }

/-- The `catch` block of `query()`: an error caught while the abort signal
has fired and whose `name` is `"AbortError"` is replaced by the timeout
error; every other error passes through unchanged. -/
def catchTransform (timeout : Nat) (aborted : Bool) (e : QError) : QError :=
  if aborted && e.name == "AbortError" then
    { name := "Error", message := "Query timed out after " ++ toString timeout ++ "ms" }
  else e

/-- The `finally` block of `query()`: mark the turn finished, clear the
timeout timer, then `await session?.destroy()` — if a session exists and its
destroy rejects, that rejection propagates out of the `finally` at once, so
`client.stop()` is never reached; otherwise stop the client and, when
`stop()` returned a non-empty error list, yield one final synthetic
error-type event summarizing it. -/
def runFinally (env : QueryEnv) (hadSession : Bool) (ys : List SessionEvent)
    (bodyError : Option QError) : QueryResult :=
  match hadSession, env.destroyResult with
  | true, .error d =>
    { yielded := ys,
      outcome := .error d,
      teardown := { turnFinished := true, timerCleared := true,
                    sessionDestroyed := some false, clientStopped := false,
                    syntheticErrorEvents := 0 } }
  | _, _ =>
    let extra : List SessionEvent :=
      if env.stopErrors.isEmpty then []
      else [cleanupErrorEvent env.stopErrors env.now env.nowIso]
    { yielded := ys ++ extra,
      outcome := match bodyError with
        | some e => .error e
        | none => .ok (),
      teardown := { turnFinished := true, timerCleared := true,
                    sessionDestroyed := if hadSession then some true else none,
                    clientStopped := true,
                    syntheticErrorEvents := extra.length } }

/-- `query()` end to end over its environment: read options with defaults,
start the client, create the session, consume the event stream, convert an
abort-caused `AbortError` into the timeout error in the `catch`, and run the
`finally` teardown on every path. -/
def runQuery (opts : QueryOpts) (env : QueryEnv) : QueryResult :=
  let timeout := opts.timeout.getD 60000
  let includeEphemeral := opts.includeEphemeral.getD true
  match env.startResult with
  | .error e => runFinally env false [] (some (catchTransform timeout false e))
  | .ok _ =>
    match env.sessionResult with
    | .error e => runFinally env false [] (some (catchTransform timeout false e))
    | .ok _ =>
      let r := runLoop includeEphemeral env.events
      match r.2 with
      | .completed => runFinally env true r.1 none
      | .sessionErr m =>
        runFinally env true r.1
          (some (catchTransform timeout false { name := "Error", message := m }))
      | .exhausted =>
        match env.interruption with
        | .abortFired =>
          runFinally env true r.1
            (some (catchTransform timeout true
              { name := "AbortError", message := "The operation was aborted" }))
        | .sendFailure m =>
          runFinally env true r.1
            (some (catchTransform timeout false { name := "Error", message := m }))

/-! ### CopilotClient.startCLIServer / connectViaTcp (client.ts) -/

/-- What the spawned CLI process does, in order, within the 10-second startup
window: emit a chunk on standard output, raise a spawn-level error, or exit
with a code. -/
inductive ProcEvent where
  | stdoutData (s : String)
  | procError (message : String)
  | procExit (code : Int)

/-- How `startCLIServer()` settles: ready (with the captured port in TCP
mode, none in stdio mode) or failed with an error message. -/
inductive StartOutcome where
  | ready (actualPort : Option Nat)
  | failed (message : String)
  deriving DecidableEq, Repr

/-- The pattern of the readiness regular expression,
`/listening on port (\d+)/i`, as a character list. -/
def announcementKey : List Char := "listening on port ".toList

/-- Case-insensitive test that `key` is a prefix of `cs`. -/
def keyAtFront (key cs : List Char) : Bool :=
  match key, cs with
  | [], _ => true
  | _ :: _, [] => false
  | k :: ks, c :: rest => (k == c.toLower) && keyAtFront ks rest

/-- `parseInt(match[1], 10)` on the captured digit run. -/
def digitsValue (ds : List Char) : Nat :=
  ds.foldl (fun a c => 10 * a + (c.toNat - 48)) 0

/-- The regular-expression match attempted at the front of the buffer: the
key `listening on port ` (case-insensitively) followed by at least one digit;
the captured group is the maximal digit run. -/
def matchAtFront (cs : List Char) : Option Nat :=
  if keyAtFront announcementKey cs then
    let ds := (cs.drop announcementKey.length).takeWhile Char.isDigit
    if ds.isEmpty then none else some (digitsValue ds)
  else none

/-- The leftmost match of `/listening on port (\d+)/i` in the accumulated
stdout buffer, as the regular-expression engine finds it. -/
def findPortAnnouncement : List Char → Option Nat
  | [] => none
  | c :: cs =>
    match matchAtFront (c :: cs) with
    | some n => some n
    | none => findPortAnnouncement cs

/-- The TCP branch of `startCLIServer()`: process events are handled in
order; each stdout chunk is appended to the buffer and the buffer re-matched
— the first match resolves readiness with the captured port; a spawn error or
an exit before resolution rejects; if the 10-second window ends (the events
run out) with none of these, the startup timeout rejects. -/
def startTcpLoop (buf : List Char) : List ProcEvent → StartOutcome
  | [] => .failed "Timeout waiting for CLI server to start"
  | .stdoutData s :: rest =>
    let buf2 := buf ++ s.toList
    match findPortAnnouncement buf2 with
    | some n => .ready (some n)
    | none => startTcpLoop buf2 rest
  | .procError m :: _ => .failed ("Failed to start CLI server: " ++ m)
  | .procExit c :: _ => .failed ("CLI server exited with code " ++ toString c)

/-- `CopilotClient.startCLIServer`: in stdio mode readiness resolves
immediately after spawn, before any process event is read; in TCP mode it is
decided by `startTcpLoop` over the process events of the startup window. -/
def startCLIServer (useStdio : Bool) (events : List ProcEvent) : StartOutcome :=
  if useStdio then .ready none else startTcpLoop [] events

/-- `CopilotClient.connectViaTcp`: dial `localhost` on `this.actualPort`; the
returned value is the port actually dialled. Without a captured port the
connect fails. -/
def connectViaTcp (actualPort : Option Nat) : Except String Nat :=
  match actualPort with
  | none => .error "Server port not available"
  | some p => .ok p

/-- The standard-output text of a list of process events, concatenated in
order (the full buffer the TCP branch would accumulate). -/
def concatStdout : List ProcEvent → List Char
  | [] => []
  | .stdoutData s :: rest => s.toList ++ concatStdout rest
  | _ :: rest => concatStdout rest

/-! ### Theorems for the claims -/

/-- C6: dispatching one event to a session with N registered handlers invokes
every one of the N handlers with that event — the dispatch record has one
entry per handler, in registration order, each the result of applying that
handler to the dispatched event — even when some handler raises: the raise is
caught inside the loop (the dispatch function is total, so nothing propagates
out of it) and the remaining handlers still receive the event. -/
theorem dispatchEvent_invokes_all_handlers (handlers : List SessionHandler)
    (event : SessionEvent) :
    dispatchEvent handlers event = handlers.map (fun h => (h.hid, h.run event)) ∧
    (dispatchEvent handlers event).length = handlers.length := by
  have key : ∀ hs : List SessionHandler,
      dispatchEvent hs event = hs.map (fun h => (h.hid, h.run event)) := by
    intro hs
    induction hs with
    | nil => rfl
    | cons h rest ih =>
      cases hr : h.run event <;> simp [dispatchEvent, hr, ih]
  exact ⟨key handlers, by rw [key handlers]; simp⟩

/-- C7: `destroy()` is idempotent on the client side: when the
`session.destroy` RPC succeeds on each call, a second `destroy()` on the same
session does not raise, and after each of the two calls the session's
event-handler set and tool-handler map are both empty. -/
theorem destroy_idempotent (s : SessionState) (rpc1 rpc2 : Except String Unit)
    (h1 : rpc1 = .ok ()) (h2 : rpc2 = .ok ()) :
    ∃ s1 s2,
      destroy rpc1 s = .ok s1 ∧ s1.eventHandlers = [] ∧ s1.toolHandlers = [] ∧
      destroy rpc2 s1 = .ok s2 ∧ s2.eventHandlers = [] ∧ s2.toolHandlers = [] := by
  subst h1
  subst h2
  exact ⟨_, _, rfl, rfl, rfl, rfl, rfl, rfl⟩

/-- Witness for C7 at a session holding one event handler and one tool
handler, with both RPC calls succeeding. -/
theorem destroy_idempotent_witness :
    ∃ s1 s2,
      destroy (.ok ())
          { eventHandlers := [{ hid := 0, run := fun _ => none }],
            toolHandlers := [("my_tool", fun _ => .returns none)] } = .ok s1 ∧
      s1.eventHandlers = [] ∧ s1.toolHandlers = [] ∧
      destroy (.ok ()) s1 = .ok s2 ∧
      s2.eventHandlers = [] ∧ s2.toolHandlers = [] :=
  destroy_idempotent _ _ _ rfl rfl

/-- C3: an inbound `tool.call` whose payload is well formed and whose session
is registered, but whose tool name has no registered handler in that session,
is answered successfully (the dispatcher does not throw): the response
carries a `ToolResult` whose `resultType` is failure and whose message says
the tool is not supported by this client instance. -/
theorem toolCall_unsupported_tool (sessions : SessionRegistry)
    (sid tcid tname args : String) (session : SessionState)
    (hsess : sessions.lookup sid = some session)
    (hnone : getToolHandler session tname = none) :
    handleToolCallRequest sessions
        { sessionId := some sid, toolCallId := some tcid,
          toolName := some tname, arguments := args } =
      .ok { result := .obj (buildUnsupportedToolResult tname) } ∧
    (buildUnsupportedToolResult tname).resultType = .failure ∧
    (buildUnsupportedToolResult tname).textResultForLlm =
      "Tool " ++ sq ++ tname ++ sq ++ " is not supported by this client instance." := by
  refine ⟨?_, rfl, rfl⟩
  simp [handleToolCallRequest, hsess, hnone]

/-- Witness for C3: a registered session with no handler for the requested
tool name answers with the unsupported-tool failure result. -/
theorem toolCall_unsupported_tool_witness :
    handleToolCallRequest
        [("s1", { eventHandlers := [], toolHandlers := [] })]
        { sessionId := some "s1", toolCallId := some "c1",
          toolName := some "mystery_tool", arguments := "" } =
      .ok { result := .obj (buildUnsupportedToolResult "mystery_tool") } ∧
    (buildUnsupportedToolResult "mystery_tool").resultType = .failure ∧
    (buildUnsupportedToolResult "mystery_tool").textResultForLlm =
      "Tool " ++ sq ++ "mystery_tool" ++ sq ++ " is not supported by this client instance." :=
  toolCall_unsupported_tool _ _ _ _ _ _ rfl rfl

/-- C4: every handler invocation performed by the dispatcher yields a
well-formed `ToolResult`: a handler that raises is caught and converted into
a failure result carrying the message as both `textResultForLlm` and the
`error` field with empty telemetry; a handler returning `undefined` is
normalized to an explicit failure result stating no result was produced; and
a bare string return is accepted unchanged as the result. -/
theorem executeToolCall_always_structured (handler : ToolHandler)
    (inv : ToolInvocation) :
    (∀ m, handler inv = .throws m →
      executeToolCall handler inv =
        { result := .obj { textResultForLlm := m, resultType := .failure,
                           error := some m, toolTelemetry := [] } }) ∧
    (handler inv = .returns none →
      executeToolCall handler inv =
        { result := .obj { textResultForLlm := "Tool returned no result",
                           resultType := .failure,
                           error := some "tool returned no result",
                           toolTelemetry := [] } }) ∧
    (∀ s, handler inv = .returns (some (.str s)) →
      executeToolCall handler inv = { result := .str s }) := by
  refine ⟨?_, ?_, ?_⟩
  · intro m hm
    simp [executeToolCall, hm]
  · intro hu
    simp [executeToolCall, hu, normalizeToolResult]
  · intro s hs
    simp [executeToolCall, hs, normalizeToolResult]

/-- Witness for C4 on three concrete handlers: one that throws, one that
returns `undefined`, and one that returns a bare string. -/
theorem executeToolCall_always_structured_witness :
    executeToolCall (fun _ => .throws "kaboom")
        { sessionId := "s1", toolCallId := "c1", toolName := "t", arguments := "" } =
      { result := .obj { textResultForLlm := "kaboom", resultType := .failure,
                         error := some "kaboom", toolTelemetry := [] } } ∧
    executeToolCall (fun _ => .returns none)
        { sessionId := "s1", toolCallId := "c1", toolName := "t", arguments := "" } =
      { result := .obj { textResultForLlm := "Tool returned no result",
                         resultType := .failure,
                         error := some "tool returned no result",
                         toolTelemetry := [] } } ∧
    executeToolCall (fun _ => .returns (some (.str "42")))
        { sessionId := "s1", toolCallId := "c1", toolName := "t", arguments := "" } =
      { result := .str "42" } :=
  ⟨(executeToolCall_always_structured _ _).1 "kaboom" rfl,
   (executeToolCall_always_structured _ _).2.1 rfl,
   (executeToolCall_always_structured _ _).2.2 "42" rfl⟩

/-- C5: an inbound `tool.call` whose payload lacks a string `sessionId`,
`toolCallId` or `toolName`, or whose `sessionId` names no registered session,
fails the RPC request itself (the dispatcher throws a protocol-level error)
and returns no `ToolResult`. -/
theorem toolCall_protocol_errors (sessions : SessionRegistry)
    (p : ToolCallPayload)
    (h : p.sessionId = none ∨ p.toolCallId = none ∨ p.toolName = none ∨
      ∃ sid, p.sessionId = some sid ∧ sessions.lookup sid = none) :
    ∃ e, handleToolCallRequest sessions p = .error e := by
  obtain ⟨sid?, tcid?, tname?, args⟩ := p
  rcases h with h | h | h | ⟨sid, hsid, hlook⟩
  · simp only at h
    subst h
    cases tcid? <;> cases tname? <;> exact ⟨_, rfl⟩
  · simp only at h
    subst h
    cases sid? <;> cases tname? <;> exact ⟨_, rfl⟩
  · simp only at h
    subst h
    cases sid? <;> cases tcid? <;> exact ⟨_, rfl⟩
  · simp only at hsid
    subst hsid
    cases tcid? <;> cases tname? <;>
      simp [handleToolCallRequest, hlook]

/-- Witness for C5: a payload whose `toolName` is missing fails the RPC, and
a well-formed payload naming an unregistered session fails the RPC. -/
theorem toolCall_protocol_errors_witness :
    (∃ e, handleToolCallRequest []
        { sessionId := some "s1", toolCallId := some "c1",
          toolName := none, arguments := "" } = .error e) ∧
    (∃ e, handleToolCallRequest []
        { sessionId := some "ghost", toolCallId := some "c1",
          toolName := some "t", arguments := "" } = .error e) :=
  ⟨toolCall_protocol_errors [] _ (Or.inr (Or.inr (Or.inl rfl))),
   toolCall_protocol_errors [] _ (Or.inr (Or.inr (Or.inr ⟨"ghost", rfl, rfl⟩)))⟩

/-- C10: an inbound `session.event` notification that is not an object, or
lacks a string `sessionId`, or lacks an `event` field, or whose `sessionId`
names no registered session, is silently discarded — the handler returns
without raising, dispatches to no session and touches no state — while a
well-formed notification for a registered session is forwarded unchanged to
that session's dispatch. -/
theorem sessionEventNotification_routing (sessions : SessionRegistry)
    (n : NotificationValue) :
    ((n = .notObject ∨
      (∃ ev, n = .object none ev) ∨
      (∃ ev, n = .object (some .nonString) ev) ∨
      (∃ sidF, n = .object sidF none) ∨
      (∃ sid ev, n = .object (some (.str sid)) (some ev) ∧
        sessions.lookup sid = none)) →
      handleSessionEventNotification sessions n = none) ∧
    (∀ sid ev session, n = .object (some (.str sid)) (some ev) →
      sessions.lookup sid = some session →
      handleSessionEventNotification sessions n =
        some (sid, ev, dispatchEvent session.eventHandlers ev)) := by
  constructor
  · rintro (rfl | ⟨ev, rfl⟩ | ⟨ev, rfl⟩ | ⟨sidF, rfl⟩ | ⟨sid, ev, rfl, hlook⟩)
    · rfl
    · cases ev <;> rfl
    · cases ev <;> rfl
    · rcases sidF with _ | f
      · rfl
      · cases f <;> rfl
    · simp [handleSessionEventNotification, hlook]
  · rintro sid ev session rfl hlook
    simp [handleSessionEventNotification, hlook]

/-- A one-session registry used to exercise the notification routing at a
concrete input. -/
def demoSession : SessionState :=
  { eventHandlers := [{ hid := 7, run := fun _ => none }], toolHandlers := [] }

/-- The registry holding `demoSession` under id `s1`. -/
def demoRegistry : SessionRegistry := [("s1", demoSession)]

/-- A concrete well-formed session event. -/
def demoEvent : SessionEvent :=
  { type := "assistant.message", data := .noMessage, id := "e1", timestamp := "t1" }

/-- Witness for C10: with one registered session, a notification missing its
`event` field is discarded, a notification for an unknown session is
discarded, and a well-formed notification for the registered session is
dispatched to its one handler with the event unchanged. -/
theorem sessionEventNotification_routing_witness :
    handleSessionEventNotification demoRegistry
        (.object (some (.str "s1")) none) = none ∧
    handleSessionEventNotification demoRegistry
        (.object (some (.str "ghost")) (some demoEvent)) = none ∧
    handleSessionEventNotification demoRegistry
        (.object (some (.str "s1")) (some demoEvent)) =
      some ("s1", demoEvent, [(7, none)]) :=
  ⟨(sessionEventNotification_routing demoRegistry
        (.object (some (.str "s1")) none)).1
      (Or.inr (Or.inr (Or.inr (Or.inl ⟨some (.str "s1"), rfl⟩)))),
   (sessionEventNotification_routing demoRegistry
        (.object (some (.str "ghost")) (some demoEvent))).1
      (Or.inr (Or.inr (Or.inr (Or.inr ⟨"ghost", demoEvent, rfl, rfl⟩)))),
   (sessionEventNotification_routing demoRegistry
        (.object (some (.str "s1")) (some demoEvent))).2 "s1" demoEvent demoSession
      rfl rfl⟩

/-- Helper: the error list accumulated by the session-teardown phase of
`stop()` is exactly one aggregated error per fully failed session, in session
order — a failed session never aborts the processing of the remaining
sessions. -/
theorem sessionStopErrors_eq_filterMap (sessions : List SessionStopEnv) :
    (sessionStopErrors sessions).1 = sessions.filterMap aggregatedError := by
  induction sessions with
  | nil => rfl
  | cons s rest ih =>
    cases h : (destroyWithRetry s.destroyAttempt).1 with
    | none => simp [sessionStopErrors, h, ih, aggregatedError, List.filterMap_cons]
    | some e => simp [sessionStopErrors, h, ih, aggregatedError, List.filterMap_cons]

/-- C2: `stop()` never throws (it is a total function into its error list)
and: the registry is empty afterwards; the returned error list is exactly one
aggregated error — naming the session and the last failure — for each
session whose destroy failed all attempts (no failure aborts the shutdown of
the remaining sessions, and the list is empty on clean shutdown), followed by
the guarded resource-teardown errors; and the retry loop for one session
makes at most 3 destroy attempts, sleeping the exponential backoff delays
100ms then 200ms between consecutive failed attempts. -/
theorem stop_spec (env : StopEnv) :
    (stop env).sessionsAfter = [] ∧
    (stop env).errors =
      env.sessions.filterMap aggregatedError
        ++ resourceStopError "Failed to dispose connection: " env.connection
        ++ resourceStopError "Failed to close socket: " env.socket
        ++ resourceStopError "Failed to kill CLI process: " env.cliProcess ∧
    (∀ (s : SessionStopEnv) e, (destroyWithRetry s.destroyAttempt).1 = some e →
      aggregatedError s =
        some ("Failed to destroy session " ++ s.sessionId
          ++ " after 3 attempts: " ++ e)) ∧
    (∀ s : SessionStopEnv, (destroyWithRetry s.destroyAttempt).1 = none →
      aggregatedError s = none) ∧
    (∀ d : Nat → Except String Unit, d 1 = .ok () →
      destroyWithRetry d = (none, [])) ∧
    (∀ (d : Nat → Except String Unit) e1, d 1 = .error e1 → d 2 = .ok () →
      destroyWithRetry d = (none, [100])) ∧
    (∀ (d : Nat → Except String Unit) e1 e2,
      d 1 = .error e1 → d 2 = .error e2 → d 3 = .ok () →
      destroyWithRetry d = (none, [100, 200])) ∧
    (∀ (d : Nat → Except String Unit) e1 e2 e3,
      d 1 = .error e1 → d 2 = .error e2 → d 3 = .error e3 →
      destroyWithRetry d = (some e3, [100, 200])) := by
  refine ⟨rfl, ?_, ?_, ?_, ?_, ?_, ?_, ?_⟩
  · simp [stop, sessionStopErrors_eq_filterMap]
  · intro s e h
    simp [aggregatedError, h]
  · intro s h
    simp [aggregatedError, h]
  · intro d h
    simp [destroyWithRetry, destroyLoop, h]
  · intro d e1 h1 h2
    norm_num [destroyWithRetry, destroyLoop, h1, h2, destroyDelay]
  · intro d e1 e2 h1 h2 h3
    norm_num [destroyWithRetry, destroyLoop, h1, h2, h3, destroyDelay]
  · intro d e1 e2 e3 h1 h2 h3
    norm_num [destroyWithRetry, destroyLoop, h1, h2, h3, destroyDelay]

/-- A client with two live sessions: destroying `sA` always fails, destroying
`sB` succeeds at once; no connection, socket or process to close. -/
def stopEnvDemo : StopEnv :=
  { sessions := [{ sessionId := "sA", destroyAttempt := fun _ => .error "boom" },
                 { sessionId := "sB", destroyAttempt := fun _ => .ok () }],
    connection := none, socket := none, cliProcess := none }

/-- Witness for C2, the acceptance scenario: with two sessions of which one
fails all 3 destroy attempts and one succeeds, `stop()` returns exactly one
aggregated error, both sessions are removed from the registry, and the
failing session slept the backoff delays 100ms then 200ms. -/
theorem stop_spec_witness :
    (stop stopEnvDemo).sessionsAfter = [] ∧
    (stop stopEnvDemo).errors =
      ["Failed to destroy session sA after 3 attempts: boom"] ∧
    destroyWithRetry (fun _ => .error "boom") = (some "boom", [100, 200]) ∧
    destroyWithRetry (fun _ => .ok ()) = (none, []) :=
  ⟨(stop_spec stopEnvDemo).1,
   by rw [(stop_spec stopEnvDemo).2.1]; rfl,
   (stop_spec stopEnvDemo).2.2.2.2.2.2.2 (fun _ => .error "boom")
     "boom" "boom" "boom" rfl rfl rfl,
   (stop_spec stopEnvDemo).2.2.2.2.1 (fun _ => .ok ()) rfl⟩

/-- The options of a demonstration `query()` run (all defaults). -/
def queryOptsDemo : QueryOpts := { prompt := "What is 2+2?" }

/-- A `session.idle` event: the normal completion signal of a query. -/
def idleEvent : SessionEvent :=
  { type := "session.idle", data := .noMessage, id := "e1", timestamp := "t1" }

/-- A run in which everything succeeds — the client starts, the session is
created, the stream completes normally on `session.idle` — except that the
`session.destroy()` call awaited inside the `finally` block rejects. The
client's `stop()` would even have reported cleanup errors to surface. -/
def qenvDestroyRejects : QueryEnv :=
  { startResult := .ok (), sessionResult := .ok (),
    events := [idleEvent], interruption := .abortFired,
    destroyResult := .error { name := "Error", message := "destroy rejected" },
    stopErrors := ["kill failed"], now := 0, nowIso := "t0" }

/-- C1: evaluation of `query()` at a run whose cleanup `session.destroy()`
rejects. The turn is marked finished and the timer cleared (they precede the
destroy), but the rejection propagates out of the `finally` block before
`client.stop()` is reached: the client is left running, no synthetic
cleanup-error event is yielded, and the stream fails with the destroy
rejection — so the teardown sequence is not guaranteed on every exit path,
contrary to the stated invariant. -/
theorem query_destroy_rejection_skips_stop :
    (runQuery queryOptsDemo qenvDestroyRejects).teardown.turnFinished = true ∧
    (runQuery queryOptsDemo qenvDestroyRejects).teardown.timerCleared = true ∧
    (runQuery queryOptsDemo qenvDestroyRejects).teardown.sessionDestroyed = some false ∧
    (runQuery queryOptsDemo qenvDestroyRejects).teardown.clientStopped = false ∧
    (runQuery queryOptsDemo qenvDestroyRejects).teardown.syntheticErrorEvents = 0 ∧
    (runQuery queryOptsDemo qenvDestroyRejects).outcome =
      .error { name := "Error", message := "destroy rejected" } :=
  ⟨rfl, rfl, rfl, rfl, rfl, rfl⟩

/-- C8: when the timeout abort fires before an idle/complete event, the
stream fails with the distinct timeout error — message `Query timed out after
<N>ms` with `N` the configured timeout, `60000` by default — while a failure
triggered by a `session.error` event carries that event's own message
instead, so the two causes are distinguishable. -/
theorem query_timeout_error_distinct :
    (∀ (opts : QueryOpts) (env : QueryEnv),
      env.startResult = .ok () → env.sessionResult = .ok () →
      (runLoop (opts.includeEphemeral.getD true) env.events).2 = .exhausted →
      env.interruption = .abortFired → env.destroyResult = .ok () →
      (runQuery opts env).outcome =
        .error { name := "Error",
                 message := "Query timed out after "
                   ++ toString (opts.timeout.getD 60000) ++ "ms" }) ∧
    (∀ (opts : QueryOpts) (env : QueryEnv) (m : String),
      env.startResult = .ok () → env.sessionResult = .ok () →
      (runLoop (opts.includeEphemeral.getD true) env.events).2 = .sessionErr m →
      env.destroyResult = .ok () →
      (runQuery opts env).outcome = .error { name := "Error", message := m }) := by
  constructor
  · intro opts env hs hc hex hint hd
    simp [runQuery, hs, hc, hex, hint, runFinally, hd, catchTransform]
  · intro opts env m hs hc herr hd
    simp [runQuery, hs, hc, herr, runFinally, hd, catchTransform]

/-- A run that never reaches an idle event: no session event arrives and the
abort fires at the default 60000ms timeout. -/
def qenvTimesOut : QueryEnv :=
  { startResult := .ok (), sessionResult := .ok (),
    events := [], interruption := .abortFired,
    destroyResult := .ok (), stopErrors := [], now := 0, nowIso := "t0" }

/-- A `session.error` event carrying the message `backend exploded`. -/
def sessionErrorEvent : SessionEvent :=
  { type := "session.error", data := .withMessage "backend exploded",
    id := "e2", timestamp := "t2" }

/-- A run that fails through a `session.error` event rather than the
timeout. -/
def qenvSessionError : QueryEnv :=
  { startResult := .ok (), sessionResult := .ok (),
    events := [sessionErrorEvent], interruption := .abortFired,
    destroyResult := .ok (), stopErrors := [], now := 0, nowIso := "t0" }

/-- Witness for C8: with the default timeout, the aborted run fails with
`Query timed out after 60000ms`, while the `session.error` run fails with
that event's message — two distinct errors. -/
theorem query_timeout_error_distinct_witness :
    (runQuery queryOptsDemo qenvTimesOut).outcome =
      .error { name := "Error", message := "Query timed out after 60000ms" } ∧
    (runQuery queryOptsDemo qenvSessionError).outcome =
      .error { name := "Error", message := "backend exploded" } :=
  ⟨query_timeout_error_distinct.1 queryOptsDemo qenvTimesOut rfl rfl rfl rfl rfl,
   query_timeout_error_distinct.2 queryOptsDemo qenvSessionError "backend exploded"
     rfl rfl rfl rfl⟩

/-- Helper: a key match at the front of a buffer survives appending more
output to the buffer. -/
theorem keyAtFront_append (key cs ys : List Char) (h : keyAtFront key cs = true) :
    keyAtFront key (cs ++ ys) = true := by
  induction key generalizing cs with
  | nil => rfl
  | cons k ks ih =>
    cases cs with
    | nil => simp [keyAtFront] at h
    | cons c rest =>
      simp only [keyAtFront, Bool.and_eq_true] at h
      simp only [List.cons_append, keyAtFront, Bool.and_eq_true]
      exact ⟨h.1, ih rest h.2⟩

/-- Helper: a matched key is no longer than the buffer it matched in. -/
theorem keyAtFront_length (key cs : List Char) (h : keyAtFront key cs = true) :
    key.length ≤ cs.length := by
  induction key generalizing cs with
  | nil => simp
  | cons k ks ih =>
    cases cs with
    | nil => simp [keyAtFront] at h
    | cons c rest =>
      simp only [keyAtFront, Bool.and_eq_true] at h
      simpa using Nat.succ_le_succ (ih rest h.2)

/-- Helper: a nonempty digit run at the front of a buffer stays nonempty when
the buffer is extended. -/
theorem takeWhile_append_ne_nil (p : Char → Bool) (a ys : List Char)
    (h : a.takeWhile p ≠ []) : (a ++ ys).takeWhile p ≠ [] := by
  cases a with
  | nil => simp at h
  | cons c t =>
    by_cases hp : p c = true
    · simp [List.takeWhile_cons, hp]
    · simp [List.takeWhile_cons, hp] at h

/-- Helper: a successful regular-expression match at the front of a buffer
survives appending further output. -/
theorem matchAtFront_append_isSome (cs ys : List Char)
    (h : (matchAtFront cs).isSome = true) :
    (matchAtFront (cs ++ ys)).isSome = true := by
  simp only [matchAtFront] at h ⊢
  by_cases hk : keyAtFront announcementKey cs = true
  · rw [if_pos hk] at h
    rw [if_pos (keyAtFront_append _ _ _ hk)]
    rw [List.drop_append_of_le_length (keyAtFront_length _ _ hk)]
    have hne : (cs.drop announcementKey.length).takeWhile Char.isDigit ≠ [] := by
      intro hnil
      rw [hnil] at h
      simp at h
    cases hcase : (cs.drop announcementKey.length ++ ys).takeWhile Char.isDigit with
    | nil => exact absurd hcase (takeWhile_append_ne_nil Char.isDigit _ ys hne)
    | cons d t => simp
  · rw [if_neg hk] at h
    simp at h

/-- Helper: when the extended buffer has no port announcement anywhere, the
original buffer had none either. -/
theorem findPortAnnouncement_append_none (xs ys : List Char)
    (h : findPortAnnouncement (xs ++ ys) = none) :
    findPortAnnouncement xs = none := by
  induction xs with
  | nil => rfl
  | cons c cs ih =>
    simp only [List.cons_append, List.append_eq, findPortAnnouncement] at h ⊢
    cases hm2 : matchAtFront (c :: (cs ++ ys)) with
    | some k => simp [hm2] at h
    | none =>
      rw [hm2] at h
      cases hm : matchAtFront (c :: cs) with
      | some n =>
        have hs := matchAtFront_append_isSome (c :: cs) ys (by simp [hm])
        rw [List.cons_append, hm2] at hs
        simp at hs
      | none =>
        simp only []
        exact ih h

/-- Helper: the TCP readiness loop over a startup window holding only stdout
chunks whose accumulated text never announces a port ends in the startup
timeout. -/
theorem startTcpLoop_timeout : ∀ (events : List ProcEvent) (buf : List Char),
    (∀ e ∈ events, ∃ s, e = ProcEvent.stdoutData s) →
    findPortAnnouncement (buf ++ concatStdout events) = none →
    startTcpLoop buf events = .failed "Timeout waiting for CLI server to start" := by
  intro events
  induction events with
  | nil =>
    intro buf _ _
    rfl
  | cons e rest ih =>
    intro buf hdata hnone
    obtain ⟨s, rfl⟩ := hdata e (List.mem_cons_self e rest)
    have hfull : findPortAnnouncement ((buf ++ s.toList) ++ concatStdout rest) = none := by
      rw [List.append_assoc]
      exact hnone
    have hbuf : findPortAnnouncement (buf ++ s.toList) = none :=
      findPortAnnouncement_append_none _ _ hfull
    simp only [startTcpLoop, hbuf]
    exact ih (buf ++ s.toList) (fun x hx => hdata x (List.mem_cons_of_mem _ hx)) hfull

/-- C9: in stdio mode `start()` resolves readiness immediately after spawn,
before reading any process output; in TCP mode it buffers standard output and
resolves as soon as the buffer matches `listening on port <N>`, capturing `N`
as the port the subsequent connection dials; and a startup window holding no
port announcement and no spawn error or exit ends in the 10-second timeout
failure rather than hanging. -/
theorem startCLIServer_readiness :
    (∀ events : List ProcEvent, startCLIServer true events = .ready none) ∧
    (∀ (s : String) (post : List ProcEvent) (n : Nat),
      findPortAnnouncement s.toList = some n →
      startCLIServer false (ProcEvent.stdoutData s :: post) = .ready (some n) ∧
      connectViaTcp (some n) = .ok n) ∧
    (∀ events : List ProcEvent,
      (∀ e ∈ events, ∃ s, e = ProcEvent.stdoutData s) →
      findPortAnnouncement (concatStdout events) = none →
      startCLIServer false events =
        .failed "Timeout waiting for CLI server to start") := by
  refine ⟨fun events => rfl, ?_, ?_⟩
  · intro s post n h
    simp only [String.toList] at h
    refine ⟨?_, rfl⟩
    simp [startCLIServer, startTcpLoop, h]
  · intro events hdata hnone
    have : findPortAnnouncement ([] ++ concatStdout events) = none := by
      simpa using hnone
    simpa [startCLIServer] using startTcpLoop_timeout events [] hdata this

/-- Witness for C9, the acceptance scenario: a TCP-mode process printing
`listening on port 54321` resolves readiness with port 54321 and the
connection dials that port; stdio mode is ready with no events at all; and a
process that only prints an unrelated banner ends in the startup timeout. -/
theorem startCLIServer_readiness_witness :
    startCLIServer true [] = .ready none ∧
    startCLIServer false [ProcEvent.stdoutData "listening on port 54321\n"] =
      .ready (some 54321) ∧
    connectViaTcp (some 54321) = .ok 54321 ∧
    startCLIServer false [ProcEvent.stdoutData "Copilot CLI starting up\n"] =
      .failed "Timeout waiting for CLI server to start" :=
  ⟨startCLIServer_readiness.1 [],
   (startCLIServer_readiness.2.1 "listening on port 54321\n" [] 54321 (by decide)).1,
   (startCLIServer_readiness.2.1 "listening on port 54321\n" [] 54321 (by decide)).2,
   startCLIServer_readiness.2.2 [ProcEvent.stdoutData "Copilot CLI starting up\n"]
     (by
       intro e he
       rw [List.mem_singleton] at he
       exact ⟨_, he⟩)
     (by decide)⟩

end CopilotSDK
